import Mathlib

/-!
Verification of the core of the send-torrent-telegram-bot repository: the
batched-ingestion coordinator (src/bot/main.py), the RSS pagination and
selection handlers (src/bot/handlers/rss.py) and the feed store
(src/bot/services/rss_manager.py), shallowly embedded as executable Lean
definitions together with theorems about them.
-/

namespace STTB

/-- TorrentFile dataclass from src/bot/models.py: name, size in KB, success
flag.  The size is modelled as a natural number of (scaled) KB units; none of
the verified properties depend on the numeric type. -/
structure TorrentFile where
  name : String
  size : Nat
  success : Bool
deriving DecidableEq, Repr

/-- A feed entry as consumed by the RSS handlers (feedparser entry with
entry.get fields title, link, category; src/bot/handlers/rss.py). -/
structure FeedEntry where
  title : String
  link : String
  category : String
deriving DecidableEq, Repr

/-! ## Pagination (src/bot/handlers/rss.py, handle_rss_browse lines 333-338) -/

/-- items_per_page = 15, hard-coded in handle_rss_browse
(src/bot/handlers/rss.py line 334). -/
def items_per_page : Nat := 15

/-- total_pages = math.ceil(len(entries) / items_per_page) from
handle_rss_browse (src/bot/handlers/rss.py line 335), with the page size kept
as a parameter p (the source instantiates p = items_per_page).  Note the
source takes the plain ceiling: there is no minimum of 1. -/
def total_pages (n p : Nat) : Nat := (n + p - 1) / p

/-- Modelled from the words of the spec (section 8), for comparison with
total_pages from the source: totalPages == max(1, ceil(n/p)), minimum 1 even
for an empty entry list. -/
def spec_total_pages (n p : Nat) : Nat := max 1 ((n + p - 1) / p)

/-- The page slice entries[start_idx:end_idx] with start_idx = page *
items_per_page and end_idx = min(start_idx + items_per_page, len(entries))
(src/bot/handlers/rss.py lines 336-338), with the page size as a parameter. -/
def page_slice (entries : List α) (p page : Nat) : List α :=
  (entries.drop (page * p)).take p

theorem page_slice_length (entries : List α) (p page : Nat) :
    (page_slice entries p page).length = min p (entries.length - page * p) := by
  simp [page_slice]

theorem total_pages_zero (p : Nat) (hp : 1 ≤ p) : total_pages 0 p = 0 := by
  unfold total_pages
  exact Nat.div_eq_of_lt (by omega)

theorem total_pages_succ (n p : Nat) (hp : 1 ≤ p) (hn : 1 ≤ n) :
    total_pages n p = total_pages (n - p) p + 1 := by
  unfold total_pages
  rcases le_or_lt n p with h | h
  · have h0 : n - p = 0 := by omega
    rw [h0]
    have h1 : (0 + p - 1) / p = 0 := Nat.div_eq_of_lt (by omega)
    rw [h1]
    have h2 : n + p - 1 = p * 1 + (n - 1) := by omega
    rw [h2, Nat.mul_add_div (by omega)]
    have h3 : (n - 1) / p = 0 := Nat.div_eq_of_lt (by omega)
    omega
  · have h2 : n + p - 1 = ((n - p) + p - 1) + p := by omega
    rw [h2, Nat.add_div_right _ (by omega)]

theorem total_pages_one_le (n p : Nat) (hp : 1 ≤ p) (hn : 1 ≤ n) :
    1 ≤ total_pages n p := by
  rw [total_pages_succ n p hp hn]; omega

/-- Joining the page slices of all computed pages gives back the entry list:
no entry is skipped and none repeated across consecutive pages. -/
theorem page_slice_flatMap (p : Nat) (hp : 1 ≤ p) :
    ∀ (n : Nat) (l : List α), l.length ≤ n →
      (List.range (total_pages l.length p)).flatMap (fun pg => page_slice l p pg) = l := by
  intro n
  induction n with
  | zero =>
    intro l hl
    have h0 : l = [] := List.eq_nil_of_length_eq_zero (by omega)
    subst h0
    simp [total_pages_zero p hp]
  | succ n ih =>
    intro l hl
    rcases eq_or_ne l [] with h0 | h0
    · subst h0
      simp [total_pages_zero p hp]
    · have h1 : 1 ≤ l.length := by
        cases l with
        | nil => exact absurd rfl h0
        | cons a t => simp
      rw [total_pages_succ _ p hp h1, List.range_succ_eq_map, List.flatMap_cons]
      have h2 : ∀ pg : Nat, page_slice l p (Nat.succ pg) = page_slice (l.drop p) p pg := by
        intro pg
        unfold page_slice
        rw [List.drop_drop]
        congr 1
        rw [Nat.succ_mul]
        ring_nf
      have h3 : ((List.range (total_pages (l.length - p) p)).map Nat.succ).flatMap
            (fun pg => page_slice l p pg)
          = (List.range (total_pages (l.length - p) p)).flatMap
            (fun pg => page_slice (l.drop p) p pg) := by
        rw [List.flatMap_map]
        exact List.flatMap_congr (fun pg _ => h2 pg)
      have h4 : (l.drop p).length = l.length - p := by simp
      have h5 := ih (l.drop p) (by omega)
      rw [h4] at h5
      rw [h3, h5]
      simp [page_slice]

/-! ## Browse rendering (src/bot/handlers/rss.py, handle_rss_browse) -/

/-- The render model computed by handle_rss_browse for a page request
(src/bot/handlers/rss.py lines 279-404): the page parsed from the callback
token is used exactly as received (the source never clamps it), the slice is
entries[start_idx:end_idx], the navigation buttons test page > 0 and
page < total_pages - 1, and the indicator shows the requested page. -/
structure BrowseRender where
  pageEntries : List FeedEntry
  totalPages : Nat
  pageNum : Nat
  hasPrev : Bool
  hasNext : Bool
deriving DecidableEq, Repr

/-- handle_rss_browse rendering for a given page number
(src/bot/handlers/rss.py lines 333-399). -/
def handle_rss_browse_render (entries : List FeedEntry) (page : Nat) : BrowseRender :=
  let tp := total_pages entries.length items_per_page
  { pageEntries := page_slice entries items_per_page page
    totalPages := tp
    pageNum := page
    hasPrev := decide (0 < page)
    hasNext := decide (page + 1 < tp) }

/-- The page-token parse int(query.data.split("_")[2]) with the except
(ValueError, IndexError) fallback to page 0 (src/bot/handlers/rss.py lines
280-285). -/
def parse_page_token (s : String) : Nat := (s.toNat?).getD 0

/-! ## Selection toggle (src/bot/handlers/rss.py, handle_rss_toggle) -/

/-- The toggle of handle_rss_toggle (src/bot/handlers/rss.py lines 441-447):
if idx in selected remove it, else add it.  The parsed index is never checked
against the length of the entry list. -/
def toggle_selection (selected : Finset Nat) (idx : Nat) : Finset Nat :=
  if idx ∈ selected then selected.erase idx else insert idx selected

/-- BrowseSession: the rss_entries, rss_selected and rss_current_page keys of
context.user_data (src/bot/handlers/rss.py). -/
structure BrowseSession where
  entries : List FeedEntry
  selected : Finset Nat
  currentPage : Nat
deriving DecidableEq

/-- handle_rss_toggle (src/bot/handlers/rss.py lines 429-447): flips the
membership of the parsed index in the selection set; entries and page are only
read for re-rendering. -/
def handle_rss_toggle (s : BrowseSession) (idx : Nat) : BrowseSession :=
  { s with selected := toggle_selection s.selected idx }

/-- The first-time browse (Open) effect of handle_rss_browse on the session
(src/bot/handlers/rss.py lines 287-329): the page is reset to 0, the freshly
fetched entries replace rss_entries (line 320), and rss_selected is
initialized only when absent (lines 328-329) — an existing selection is kept
as it is against the new entry list. -/
def handle_rss_open (s : BrowseSession) (fetched : List FeedEntry) : BrowseSession :=
  { entries := fetched, selected := s.selected, currentPage := 0 }

/-- The page-navigation effect of handle_rss_browse on the session
(src/bot/handlers/rss.py lines 280-283): stores the requested page; entries
and selection are unchanged. -/
def handle_rss_navigate (s : BrowseSession) (page : Nat) : BrowseSession :=
  { s with currentPage := page }

/-- handle_rss_cancel (src/bot/handlers/rss.py lines 549-557): pops every rss
session key, leaving the empty session. -/
def handle_rss_cancel (_s : BrowseSession) : BrowseSession :=
  { entries := [], selected := ∅, currentPage := 0 }

/-! ## Claims C3, C4, C5 -/

/-- C3, counterexample: the source computes total_pages as the plain ceiling
with no minimum of 1, so for an empty entry list it returns 0 where the claim
requires max(1, ceil(0/15)) = 1. -/
theorem c3_total_pages_counterexample :
    total_pages 0 items_per_page ≠ spec_total_pages 0 items_per_page := by
  decide

/-- C3 (amended): for every page size p ≥ 1 the engine computes
totalPages = ceil(n/p) with NO minimum of 1 (0 for an empty list, equal to
max(1, ceil(n/p)) whenever the list is non-empty), every page slice has
exactly min(p, n - page*p) entries, and concatenating the slices of all pages
in [0, totalPages) yields the entry list with no gaps or duplicates. -/
theorem c3_pagination (entries : List FeedEntry) (p : Nat) (hp : 1 ≤ p) :
    (∀ page, (page_slice entries p page).length = min p (entries.length - page * p))
    ∧ (List.range (total_pages entries.length p)).flatMap
        (fun pg => page_slice entries p pg) = entries
    ∧ (entries ≠ [] → total_pages entries.length p = spec_total_pages entries.length p) := by
  refine ⟨fun page => page_slice_length entries p page,
    page_slice_flatMap p hp entries.length entries le_rfl, fun hne => ?_⟩
  have h1 : 1 ≤ entries.length := by
    cases entries with
    | nil => exact absurd rfl hne
    | cons a t => simp
  have h2 := total_pages_one_le entries.length p hp h1
  unfold spec_total_pages total_pages at *
  omega

/-- C3 witness: the amended pagination facts evaluated at a concrete
three-entry list with page size 2. -/
theorem c3_pagination_witness :
    (∀ page, (page_slice ([⟨"a", "la", ""⟩, ⟨"b", "lb", ""⟩, ⟨"c", "lc", ""⟩] : List FeedEntry) 2 page).length
        = min 2 (([⟨"a", "la", ""⟩, ⟨"b", "lb", ""⟩, ⟨"c", "lc", ""⟩] : List FeedEntry).length - page * 2))
    ∧ (List.range (total_pages ([⟨"a", "la", ""⟩, ⟨"b", "lb", ""⟩, ⟨"c", "lc", ""⟩] : List FeedEntry).length 2)).flatMap
        (fun pg => page_slice ([⟨"a", "la", ""⟩, ⟨"b", "lb", ""⟩, ⟨"c", "lc", ""⟩] : List FeedEntry) 2 pg)
        = ([⟨"a", "la", ""⟩, ⟨"b", "lb", ""⟩, ⟨"c", "lc", ""⟩] : List FeedEntry)
    ∧ (([⟨"a", "la", ""⟩, ⟨"b", "lb", ""⟩, ⟨"c", "lc", ""⟩] : List FeedEntry) ≠ [] →
        total_pages ([⟨"a", "la", ""⟩, ⟨"b", "lb", ""⟩, ⟨"c", "lc", ""⟩] : List FeedEntry).length 2
          = spec_total_pages ([⟨"a", "la", ""⟩, ⟨"b", "lb", ""⟩, ⟨"c", "lc", ""⟩] : List FeedEntry).length 2) :=
  c3_pagination [⟨"a", "la", ""⟩, ⟨"b", "lb", ""⟩, ⟨"c", "lc", ""⟩] 2 (by decide)

/-- C4, counterexample: requesting page 5 of a 20-entry (2-page) feed is not
clamped: the render keeps page number 5, which is outside [0, totalPages),
and shows the empty out-of-range slice. -/
theorem c4_no_clamp_counterexample :
    (handle_rss_browse_render (List.replicate 20 ⟨"t", "l", ""⟩) 5).pageNum = 5
    ∧ ¬ ((handle_rss_browse_render (List.replicate 20 ⟨"t", "l", ""⟩) 5).pageNum
          < (handle_rss_browse_render (List.replicate 20 ⟨"t", "l", ""⟩) 5).totalPages)
    ∧ (handle_rss_browse_render (List.replicate 20 ⟨"t", "l", ""⟩) 5).pageEntries = [] := by
  decide

/-- C4 (amended): an out-of-range page request does not fail — the handler
totally computes a render model — but the page is not clamped: for every
requested page at or beyond totalPages the rendered slice is empty, the
requested page number itself is displayed, and no next-page button is
offered. -/
theorem c4_out_of_range_render (entries : List FeedEntry) (page : Nat)
    (h : total_pages entries.length items_per_page ≤ page) :
    (handle_rss_browse_render entries page).pageEntries = []
    ∧ (handle_rss_browse_render entries page).pageNum = page
    ∧ (handle_rss_browse_render entries page).hasNext = false := by
  have hlen : entries.length ≤ page * 15 := by
    have h15 : (0 : Nat) < 15 := by omega
    have h' : (entries.length + 15 - 1) / 15 ≤ page := h
    have h2 := (Nat.div_le_iff_le_mul_add_pred h15).mp h'
    omega
  refine ⟨?_, rfl, ?_⟩
  · show (entries.drop (page * items_per_page)).take items_per_page = []
    rw [List.drop_eq_nil_of_le (by unfold items_per_page; omega)]
    rfl
  · show decide (page + 1 < total_pages entries.length items_per_page) = false
    simp only [decide_eq_false_iff_not]
    omega

/-- C4 witness: the amended statement at the counterexample input, page 5 of a
2-page feed. -/
theorem c4_out_of_range_witness :
    (handle_rss_browse_render (List.replicate 20 ⟨"t", "l", ""⟩) 5).pageEntries = []
    ∧ (handle_rss_browse_render (List.replicate 20 ⟨"t", "l", ""⟩) 5).pageNum = 5
    ∧ (handle_rss_browse_render (List.replicate 20 ⟨"t", "l", ""⟩) 5).hasNext = false :=
  c4_out_of_range_render (List.replicate 20 ⟨"t", "l", ""⟩) 5 (by decide)

/-- C5: the selection toggle of handle_rss_toggle is self-inverse — toggling
the same index twice returns the original selection set. -/
theorem c5_toggle_involutive (S : Finset Nat) (i : Nat) :
    toggle_selection (toggle_selection S i) i = S := by
  unfold toggle_selection
  by_cases h : i ∈ S
  · rw [if_pos h, if_neg (Finset.not_mem_erase i S), Finset.insert_erase h]
  · rw [if_neg h, if_pos (Finset.mem_insert_self i S), Finset.erase_insert h]

/-! ## Bulk download (src/bot/handlers/rss.py, handle_rss_download) -/

/-- The sanitized target file name of handle_rss_download (line 620):
torrent_title[:100] + ".torrent" with path separators replaced by
underscores. -/
def sanitize_torrent_name (title : String) : String :=
  (((title.take 100) ++ ".torrent").replace "/" "_").replace "\\" "_"

/-- Outcome of one iteration of the for-loop of handle_rss_download. -/
inductive ItemResult where
  | skip
  | ok (nameSize : String × Nat)
  | failed (title : String)
deriving DecidableEq, Repr

/-- One iteration of the loop of handle_rss_download (src/bot/handlers/rss.py
lines 600-637): an index at or beyond the entry list is skipped (continue); an
empty link fails with the entry title; otherwise fetch models the urllib
retrieval plus the watch-folder write, returning the written size in KB on
success and nothing when any fetch/write exception is raised, in which case
the entry title goes to the failed list. -/
def download_step (entries : List FeedEntry) (fetch : String → Option Nat) (idx : Nat) :
    ItemResult :=
  if h : idx < entries.length then
    let e := entries.get ⟨idx, h⟩
    if e.link = "" then .failed e.title
    else
      match fetch e.link with
      | some size => .ok (sanitize_torrent_name e.title, size)
      | none => .failed e.title
  else .skip

/-- The whole for-loop of handle_rss_download over the iteration order of the
selected set, accumulating the downloaded (name, sizeKB) pairs and the failed
titles in processing order. -/
def download_loop (entries : List FeedEntry) (fetch : String → Option Nat) :
    List Nat → List (String × Nat) × List String
  | [] => ([], [])
  | idx :: rest =>
    match download_step entries fetch idx with
    | .skip => download_loop entries fetch rest
    | .ok ns =>
      (ns :: (download_loop entries fetch rest).1, (download_loop entries fetch rest).2)
    | .failed t =>
      ((download_loop entries fetch rest).1, t :: (download_loop entries fetch rest).2)

/-- handle_rss_download (src/bot/handlers/rss.py lines 581-640): an empty
selection answers with an alert and returns; otherwise the loop runs over the
selection and the selection set is reassigned to the empty set afterwards,
whatever the individual outcomes were.  The order argument is the iteration
order of the Python set. -/
def handle_rss_download (s : BrowseSession) (fetch : String → Option Nat)
    (order : List Nat) : BrowseSession × List (String × Nat) × List String :=
  if s.selected = ∅ then (s, [], [])
  else ({ s with selected := ∅ }, download_loop s.entries fetch order)

/-- The loop processes every index of the iteration order independently: the
result lists are exactly the filterMap of the per-item outcome over the
order.  In particular a failure at one index never stops later indices from
being processed. -/
theorem download_loop_eq (entries : List FeedEntry) (fetch : String → Option Nat) :
    ∀ order : List Nat,
      download_loop entries fetch order
        = (order.filterMap (fun i =>
            match download_step entries fetch i with
            | .ok ns => some ns
            | _ => none),
           order.filterMap (fun i =>
            match download_step entries fetch i with
            | .failed t => some t
            | _ => none)) := by
  intro order
  induction order with
  | nil => rfl
  | cons idx rest ih =>
    rw [List.filterMap_cons, List.filterMap_cons]
    cases h : download_step entries fetch idx with
    | skip => simp only [download_loop, h, ih]
    | ok ns => simp only [download_loop, h, ih]
    | failed t => simp only [download_loop, h, ih]

/-! ## Claims C6, C7 -/

/-- The BrowseSession invariant of the spec: every selected index is within
the entry list. -/
def SelectedInBounds (s : BrowseSession) : Prop :=
  ∀ i ∈ s.selected, i < s.entries.length

instance (s : BrowseSession) : Decidable (SelectedInBounds s) := by
  unfold SelectedInBounds
  infer_instance

/-- C6, counterexample: two of the five session operations violate the
invariant.  handle_rss_toggle never checks the parsed index against the entry
list, so toggling index 5 in a one-entry session (a stale callback) yields a
selection whose index is not below the entry count; and Open keeps an
existing selection while replacing the entries with a freshly fetched list,
so re-opening a two-entry session with index 1 selected against a one-entry
feed leaves the stale index 1 selected past the new entry count. -/
theorem c6_invariant_counterexample :
    (SelectedInBounds ⟨[⟨"t", "l", ""⟩], ∅, 0⟩
      ∧ ¬ SelectedInBounds (handle_rss_toggle ⟨[⟨"t", "l", ""⟩], ∅, 0⟩ 5))
    ∧ (SelectedInBounds ⟨[⟨"t", "l", ""⟩, ⟨"u", "m", ""⟩], {1}, 0⟩
      ∧ ¬ SelectedInBounds
          (handle_rss_open ⟨[⟨"t", "l", ""⟩, ⟨"u", "m", ""⟩], {1}, 0⟩ [⟨"t", "l", ""⟩])) := by
  decide

/-- C6 (amended): the bound invariant on selected indices is preserved by
Toggle only for an in-range index (an out-of-range stale toggle violates it)
and by Open only when every already-selected index is within the freshly
fetched list (Open keeps a stale selection, so a shorter fetch violates it);
it is preserved by Navigate, and is restored by Cancel and by Download, both
of which leave the selection empty. -/
theorem c6_invariant_ops (s : BrowseSession) (hs : SelectedInBounds s) :
    (∀ idx, idx < s.entries.length → SelectedInBounds (handle_rss_toggle s idx))
    ∧ (∀ fetched, (∀ i ∈ s.selected, i < fetched.length) →
        SelectedInBounds (handle_rss_open s fetched))
    ∧ (∀ page, SelectedInBounds (handle_rss_navigate s page))
    ∧ SelectedInBounds (handle_rss_cancel s)
    ∧ (∀ fetch order, SelectedInBounds (handle_rss_download s fetch order).1) := by
  refine ⟨?_, ?_, ?_, ?_, ?_⟩
  · intro idx hidx i hi
    simp only [handle_rss_toggle, toggle_selection] at hi
    by_cases hmem : idx ∈ s.selected
    · rw [if_pos hmem] at hi
      exact hs i (Finset.mem_of_mem_erase hi)
    · rw [if_neg hmem] at hi
      rcases Finset.mem_insert.mp hi with h1 | h1
      · subst h1; exact hidx
      · exact hs i h1
  · intro fetched hf i hi
    exact hf i hi
  · intro page i hi
    exact hs i hi
  · intro i hi
    simp [handle_rss_cancel] at hi
  · intro fetch order
    unfold handle_rss_download SelectedInBounds
    by_cases hsel : s.selected = ∅
    · rw [if_pos hsel]
      intro i hi
      exact hs i hi
    · rw [if_neg hsel]
      intro i hi
      simp at hi

/-- C6 witness: the amended invariant-preservation facts at a concrete
two-entry session with index 1 selected. -/
theorem c6_invariant_ops_witness :
    (∀ idx, idx < (⟨[⟨"a", "la", ""⟩, ⟨"b", "lb", ""⟩], {1}, 0⟩ : BrowseSession).entries.length →
        SelectedInBounds (handle_rss_toggle ⟨[⟨"a", "la", ""⟩, ⟨"b", "lb", ""⟩], {1}, 0⟩ idx))
    ∧ (∀ fetched, (∀ i ∈ (⟨[⟨"a", "la", ""⟩, ⟨"b", "lb", ""⟩], {1}, 0⟩ : BrowseSession).selected,
          i < fetched.length) →
        SelectedInBounds (handle_rss_open ⟨[⟨"a", "la", ""⟩, ⟨"b", "lb", ""⟩], {1}, 0⟩ fetched))
    ∧ (∀ page, SelectedInBounds (handle_rss_navigate ⟨[⟨"a", "la", ""⟩, ⟨"b", "lb", ""⟩], {1}, 0⟩ page))
    ∧ SelectedInBounds (handle_rss_cancel ⟨[⟨"a", "la", ""⟩, ⟨"b", "lb", ""⟩], {1}, 0⟩)
    ∧ (∀ fetch order,
        SelectedInBounds (handle_rss_download ⟨[⟨"a", "la", ""⟩, ⟨"b", "lb", ""⟩], {1}, 0⟩ fetch order).1) :=
  c6_invariant_ops ⟨[⟨"a", "la", ""⟩, ⟨"b", "lb", ""⟩], {1}, 0⟩ (by decide)

/-- C7: bulk download is partial-failure tolerant.  For any iteration order of
the selected set, the downloaded list is exactly the (sanitized name, sizeKB)
pairs of the successfully fetched selections and the failed list exactly the
titles of the selections whose fetch failed, each in processing order — a
failure never aborts the remaining selections — and the selection set is
cleared unconditionally afterwards. -/
theorem c7_download_partial_failure (s : BrowseSession) (fetch : String → Option Nat)
    (order : List Nat) (horder : ∀ i, i ∈ order ↔ i ∈ s.selected) :
    (handle_rss_download s fetch order).1.selected = ∅
    ∧ (handle_rss_download s fetch order).2.1
        = order.filterMap (fun i =>
            match download_step s.entries fetch i with
            | .ok ns => some ns
            | _ => none)
    ∧ (handle_rss_download s fetch order).2.2
        = order.filterMap (fun i =>
            match download_step s.entries fetch i with
            | .failed t => some t
            | _ => none) := by
  by_cases hsel : s.selected = ∅
  · have hord : order = [] := by
      apply List.eq_nil_iff_forall_not_mem.mpr
      intro i hi
      have := (horder i).mp hi
      rw [hsel] at this
      exact absurd this (Finset.not_mem_empty i)
    subst hord
    simp [handle_rss_download, hsel]
  · unfold handle_rss_download
    rw [if_neg hsel]
    exact ⟨rfl, congrArg Prod.fst (download_loop_eq s.entries fetch order),
      congrArg Prod.snd (download_loop_eq s.entries fetch order)⟩

/-- C7 witness: the spec example — three selected entries where the second
link is unreachable — yields two downloaded entries, one failed title, and an
empty selection afterwards. -/
theorem c7_download_witness :
    (handle_rss_download ⟨[⟨"e1", "l1", ""⟩, ⟨"e2", "l2", ""⟩, ⟨"e3", "l3", ""⟩], {0, 1, 2}, 0⟩
        (fun l => if l = "l2" then none else some 7) [0, 1, 2]).1.selected = ∅
    ∧ (handle_rss_download ⟨[⟨"e1", "l1", ""⟩, ⟨"e2", "l2", ""⟩, ⟨"e3", "l3", ""⟩], {0, 1, 2}, 0⟩
        (fun l => if l = "l2" then none else some 7) [0, 1, 2]).2.1
        = [0, 1, 2].filterMap (fun i =>
            match download_step [⟨"e1", "l1", ""⟩, ⟨"e2", "l2", ""⟩, ⟨"e3", "l3", ""⟩]
                (fun l => if l = "l2" then none else some 7) i with
            | .ok ns => some ns
            | _ => none)
    ∧ (handle_rss_download ⟨[⟨"e1", "l1", ""⟩, ⟨"e2", "l2", ""⟩, ⟨"e3", "l3", ""⟩], {0, 1, 2}, 0⟩
        (fun l => if l = "l2" then none else some 7) [0, 1, 2]).2.2
        = [0, 1, 2].filterMap (fun i =>
            match download_step [⟨"e1", "l1", ""⟩, ⟨"e2", "l2", ""⟩, ⟨"e3", "l3", ""⟩]
                (fun l => if l = "l2" then none else some 7) i with
            | .failed t => some t
            | _ => none) :=
  c7_download_partial_failure
    ⟨[⟨"e1", "l1", ""⟩, ⟨"e2", "l2", ""⟩, ⟨"e3", "l3", ""⟩], {0, 1, 2}, 0⟩
    (fun l => if l = "l2" then none else some 7) [0, 1, 2]
    (by intro i; simp)

/-! ## Feed store (src/bot/services/rss_manager.py) -/

/-- MAX_RSS_FEEDS = 10 (src/bot/services/rss_manager.py line 13). -/
def MAX_RSS_FEEDS : Nat := 10

/-- Python dict lookup user_feeds.get(name) on the name-to-url mapping,
modelled as an association list with distinct keys in insertion order. -/
def dict_get : List (String × String) → String → Option String
  | [], _ => none
  | (k, v) :: rest, key => if k = key then some v else dict_get rest key

/-- Python dict assignment user_feeds[name] = rss_url: overwrite in place when
the key exists, append otherwise. -/
def dict_set : List (String × String) → String → String → List (String × String)
  | [], key, v => [(key, v)]
  | (k, w) :: rest, key, v =>
    if k = key then (k, v) :: rest else (k, w) :: dict_set rest key v

/-- The whole stored mapping chat_id -> (name -> url), an association list
with Int chat ids (Telegram group ids are negative). -/
abbrev RssStore := List (Int × List (String × String))

/-- data.get(chat_id) on the store. -/
def store_get : RssStore → Int → Option (List (String × String))
  | [], _ => none
  | (k, v) :: rest, key => if k = key then some v else store_get rest key

/-- data[chat_id] = feeds on the store. -/
def store_set : RssStore → Int → List (String × String) → RssStore
  | [], key, v => [(key, v)]
  | (k, w) :: rest, key, v =>
    if k = key then (k, v) :: rest else (k, w) :: store_set rest key v

/-- save_rss_url (src/bot/services/rss_manager.py lines 48-71): create the
user record if absent, reject when the name is new and the user already has
MAX_RSS_FEEDS entries, otherwise insert or overwrite the URL under the name.
The JSON file write (_save_rss_data) is modelled as succeeding; its IOError
branch is the distinct message "Error al guardar el RSS" and is out of scope
here. -/
def save_rss_url (store : RssStore) (chat_id : Int) (name rss_url : String) :
    (Bool × String) × RssStore :=
  let user_feeds := (store_get store chat_id).getD []
  if dict_get user_feeds name = none ∧ MAX_RSS_FEEDS ≤ user_feeds.length then
    ((false, "Has alcanzado el límite de 10 feeds RSS"), store)
  else
    ((true, "RSS guardado correctamente"),
      store_set store chat_id (dict_set user_feeds name rss_url))

theorem dict_get_set_self (d : List (String × String)) (k v : String) :
    dict_get (dict_set d k v) k = some v := by
  induction d with
  | nil => simp [dict_set, dict_get]
  | cons kv rest ih =>
    obtain ⟨k0, v0⟩ := kv
    by_cases h : k0 = k
    · simp [dict_set, dict_get, h]
    · simp [dict_set, dict_get, h, ih]

theorem dict_get_set_other (d : List (String × String)) (k v k2 : String)
    (h : k2 ≠ k) : dict_get (dict_set d k v) k2 = dict_get d k2 := by
  induction d with
  | nil =>
    simp only [dict_set, dict_get]
    rw [if_neg (fun hk => h hk.symm)]
  | cons kv rest ih =>
    obtain ⟨k0, v0⟩ := kv
    by_cases h0 : k0 = k
    · subst h0
      simp only [dict_set, if_pos rfl, dict_get]
      rw [if_neg (fun hk => h hk.symm), if_neg (fun hk => h hk.symm)]
    · simp only [dict_set, if_neg h0, dict_get]
      by_cases h1 : k0 = k2
      · rw [if_pos h1, if_pos h1]
      · rw [if_neg h1, if_neg h1, ih]

theorem dict_set_length (d : List (String × String)) (k v : String) :
    (dict_set d k v).length
      = if dict_get d k = none then d.length + 1 else d.length := by
  induction d with
  | nil => simp [dict_set, dict_get]
  | cons kv rest ih =>
    obtain ⟨k0, v0⟩ := kv
    by_cases h : k0 = k
    · simp [dict_set, dict_get, h]
    · simp only [dict_set, if_neg h, dict_get, List.length_cons, ih]
      by_cases h1 : dict_get rest k = none
      · rw [if_pos h1, if_pos h1]
      · rw [if_neg h1, if_neg h1]

theorem store_get_set_self (st : RssStore) (k : Int) (v : List (String × String)) :
    store_get (store_set st k v) k = some v := by
  induction st with
  | nil => simp [store_set, store_get]
  | cons kv rest ih =>
    obtain ⟨k0, v0⟩ := kv
    by_cases h : k0 = k
    · simp [store_set, store_get, h]
    · simp [store_set, store_get, h, ih]

/-! ## Claim C8 -/

/-- C8: for a user whose stored feed count is within the limit, saving under a
NEW name fails with the limit message exactly when the user already has
MAX_RSS_FEEDS (10) feeds, a failed save leaves the store untouched, and a save
under an EXISTING name succeeds even at the limit as an overwrite: afterwards
the name maps to the new URL, any other name is unchanged, and the count grew
by one exactly when the name was new. -/
theorem c8_save_limit (store : RssStore) (chat_id : Int) (name url other : String)
    (hlim : ((store_get store chat_id).getD []).length ≤ MAX_RSS_FEEDS)
    (hother : other ≠ name) :
    ((save_rss_url store chat_id name url).1.1 = false
      ↔ (dict_get ((store_get store chat_id).getD []) name = none
          ∧ ((store_get store chat_id).getD []).length = MAX_RSS_FEEDS))
    ∧ ((save_rss_url store chat_id name url).1.1 = false →
        (save_rss_url store chat_id name url).2 = store)
    ∧ ((save_rss_url store chat_id name url).1.1 = true →
        dict_get ((store_get (save_rss_url store chat_id name url).2 chat_id).getD []) name
          = some url
        ∧ dict_get ((store_get (save_rss_url store chat_id name url).2 chat_id).getD []) other
          = dict_get ((store_get store chat_id).getD []) other
        ∧ ((store_get (save_rss_url store chat_id name url).2 chat_id).getD []).length
          = (if dict_get ((store_get store chat_id).getD []) name = none
              then ((store_get store chat_id).getD []).length + 1
              else ((store_get store chat_id).getD []).length)) := by
  unfold save_rss_url
  by_cases hcond : dict_get ((store_get store chat_id).getD []) name = none
      ∧ MAX_RSS_FEEDS ≤ ((store_get store chat_id).getD []).length
  · rw [if_pos hcond]
    refine ⟨⟨fun _ => ⟨hcond.1, by omega⟩, fun _ => rfl⟩, fun _ => rfl, fun h => ?_⟩
    exact absurd h (by simp)
  · rw [if_neg hcond]
    refine ⟨⟨fun h => absurd h (by simp), fun h => ?_⟩, fun h => absurd h (by simp),
      fun _ => ?_⟩
    · exact absurd (by omega : MAX_RSS_FEEDS ≤ ((store_get store chat_id).getD []).length)
        (fun hle => hcond ⟨h.1, hle⟩)
    · simp only [store_get_set_self, Option.getD_some]
      exact ⟨dict_get_set_self _ name url, dict_get_set_other _ name url other hother,
        dict_set_length _ name url⟩

/-- C8 witness: a user at the MAX_RSS_FEEDS limit — overwriting the existing
name "n3" still succeeds; the limit characterization, the frame condition on
name "n0" and the preserved count are all evaluated on that store. -/
theorem c8_save_limit_witness :
    ((save_rss_url [(42, [("n0", "u0"), ("n1", "u1"), ("n2", "u2"), ("n3", "u3"), ("n4", "u4"),
        ("n5", "u5"), ("n6", "u6"), ("n7", "u7"), ("n8", "u8"), ("n9", "u9")])] 42 "n3" "new").1.1 = false
      ↔ (dict_get ((store_get [(42, [("n0", "u0"), ("n1", "u1"), ("n2", "u2"), ("n3", "u3"), ("n4", "u4"),
            ("n5", "u5"), ("n6", "u6"), ("n7", "u7"), ("n8", "u8"), ("n9", "u9")])] 42).getD []) "n3" = none
          ∧ ((store_get [(42, [("n0", "u0"), ("n1", "u1"), ("n2", "u2"), ("n3", "u3"), ("n4", "u4"),
            ("n5", "u5"), ("n6", "u6"), ("n7", "u7"), ("n8", "u8"), ("n9", "u9")])] 42).getD []).length = MAX_RSS_FEEDS))
    ∧ ((save_rss_url [(42, [("n0", "u0"), ("n1", "u1"), ("n2", "u2"), ("n3", "u3"), ("n4", "u4"),
        ("n5", "u5"), ("n6", "u6"), ("n7", "u7"), ("n8", "u8"), ("n9", "u9")])] 42 "n3" "new").1.1 = false →
        (save_rss_url [(42, [("n0", "u0"), ("n1", "u1"), ("n2", "u2"), ("n3", "u3"), ("n4", "u4"),
        ("n5", "u5"), ("n6", "u6"), ("n7", "u7"), ("n8", "u8"), ("n9", "u9")])] 42 "n3" "new").2
          = [(42, [("n0", "u0"), ("n1", "u1"), ("n2", "u2"), ("n3", "u3"), ("n4", "u4"),
        ("n5", "u5"), ("n6", "u6"), ("n7", "u7"), ("n8", "u8"), ("n9", "u9")])])
    ∧ ((save_rss_url [(42, [("n0", "u0"), ("n1", "u1"), ("n2", "u2"), ("n3", "u3"), ("n4", "u4"),
        ("n5", "u5"), ("n6", "u6"), ("n7", "u7"), ("n8", "u8"), ("n9", "u9")])] 42 "n3" "new").1.1 = true →
        dict_get ((store_get (save_rss_url [(42, [("n0", "u0"), ("n1", "u1"), ("n2", "u2"), ("n3", "u3"), ("n4", "u4"),
            ("n5", "u5"), ("n6", "u6"), ("n7", "u7"), ("n8", "u8"), ("n9", "u9")])] 42 "n3" "new").2 42).getD []) "n3"
          = some "new"
        ∧ dict_get ((store_get (save_rss_url [(42, [("n0", "u0"), ("n1", "u1"), ("n2", "u2"), ("n3", "u3"), ("n4", "u4"),
            ("n5", "u5"), ("n6", "u6"), ("n7", "u7"), ("n8", "u8"), ("n9", "u9")])] 42 "n3" "new").2 42).getD []) "n0"
          = dict_get ((store_get [(42, [("n0", "u0"), ("n1", "u1"), ("n2", "u2"), ("n3", "u3"), ("n4", "u4"),
            ("n5", "u5"), ("n6", "u6"), ("n7", "u7"), ("n8", "u8"), ("n9", "u9")])] 42).getD []) "n0"
        ∧ ((store_get (save_rss_url [(42, [("n0", "u0"), ("n1", "u1"), ("n2", "u2"), ("n3", "u3"), ("n4", "u4"),
            ("n5", "u5"), ("n6", "u6"), ("n7", "u7"), ("n8", "u8"), ("n9", "u9")])] 42 "n3" "new").2 42).getD []).length
          = (if dict_get ((store_get [(42, [("n0", "u0"), ("n1", "u1"), ("n2", "u2"), ("n3", "u3"), ("n4", "u4"),
              ("n5", "u5"), ("n6", "u6"), ("n7", "u7"), ("n8", "u8"), ("n9", "u9")])] 42).getD []) "n3" = none
              then ((store_get [(42, [("n0", "u0"), ("n1", "u1"), ("n2", "u2"), ("n3", "u3"), ("n4", "u4"),
              ("n5", "u5"), ("n6", "u6"), ("n7", "u7"), ("n8", "u8"), ("n9", "u9")])] 42).getD []).length + 1
              else ((store_get [(42, [("n0", "u0"), ("n1", "u1"), ("n2", "u2"), ("n3", "u3"), ("n4", "u4"),
              ("n5", "u5"), ("n6", "u6"), ("n7", "u7"), ("n8", "u8"), ("n9", "u9")])] 42).getD []).length)) :=
  c8_save_limit [(42, [("n0", "u0"), ("n1", "u1"), ("n2", "u2"), ("n3", "u3"), ("n4", "u4"),
    ("n5", "u5"), ("n6", "u6"), ("n7", "u7"), ("n8", "u8"), ("n9", "u9")])] 42 "n3" "new" "n0"
    (by decide) (by decide)

/-! ## Store load and legacy migration (src/bot/services/rss_manager.py,
load_rss_data lines 16-35) -/

/-- A value stored under a chat-id key in the JSON file: either the legacy
shape (a single URL string) or the current name-to-url mapping. -/
inductive StoredVal where
  | str (s : String)
  | map (m : List (String × String))
deriving DecidableEq, Repr

/-- The value of one decimal digit character, none for a non-digit. -/
def digit_val? (c : Char) : Option Nat :=
  if c.isDigit then some (c.toNat - 48) else none

/-- The digits of a decimal numeral as a natural number, none when the list is
empty or holds a non-digit. -/
def parse_nat_digits : List Char → Option Nat
  | [] => none
  | cs => cs.foldl (fun acc c =>
      match acc, digit_val? c with
      | some n, some d => some (n * 10 + d)
      | _, _ => none) (some 0)

/-- The Python int(k) conversion applied to the stored chat-id keys: an
optional sign followed by decimal digits; none models the ValueError int()
raises on anything else. -/
def py_int? (s : String) : Option Int :=
  match s.data with
  | '-' :: rest => (parse_nat_digits rest).map (fun n => -(n : Int))
  | cs => (parse_nat_digits cs).map (fun n => (n : Int))

/-- The migration step of load_rss_data (src/bot/services/rss_manager.py
lines 26-30): a legacy string value becomes the one-entry mapping under the
fixed label "RSS Feed"; a mapping value is kept as it is. -/
def migrate_value : StoredVal → List (String × String)
  | .str s => [("RSS Feed", s)]
  | .map m => m

/-- The conversion loop of load_rss_data (src/bot/services/rss_manager.py
lines 23-31): each key is converted with int(k) and each value migrated.  A
key that int() cannot parse raises, which the except handler of load_rss_data
turns into the empty store; that is the none case. -/
def load_entries : List (String × StoredVal) →
    Option (List (Int × List (String × String)))
  | [] => some []
  | (k, v) :: rest =>
    match py_int? k, load_entries rest with
    | some chat_id, some out => some ((chat_id, migrate_value v) :: out)
    | _, _ => none

/-- load_rss_data (src/bot/services/rss_manager.py lines 16-35): convert every
entry; on any error return the empty store. -/
def load_rss_data (raw : List (String × StoredVal)) :
    List (Int × List (String × String)) :=
  (load_entries raw).getD []

theorem load_entries_ok (raw : List (String × StoredVal))
    (h : ∀ kv ∈ raw, (py_int? kv.1).isSome = true) :
    ∃ out, load_entries raw = some out
      ∧ List.Forall₂ (fun (kv : String × StoredVal) (o : Int × List (String × String)) =>
          py_int? kv.1 = some o.1
          ∧ (∀ u, kv.2 = .str u → o.2 = [("RSS Feed", u)])
          ∧ (∀ m, kv.2 = .map m → o.2 = m)) raw out := by
  induction raw with
  | nil => exact ⟨[], rfl, List.Forall₂.nil⟩
  | cons kv rest ih =>
    obtain ⟨k, v⟩ := kv
    have hk : (py_int? k).isSome = true := h (k, v) (List.mem_cons_self _ _)
    obtain ⟨chat_id, hc⟩ := Option.isSome_iff_exists.mp hk
    obtain ⟨out, hout, hall⟩ := ih (fun kv hkv => h kv (List.mem_cons_of_mem _ hkv))
    refine ⟨(chat_id, migrate_value v) :: out, ?_, ?_⟩
    · simp [load_entries, hc, hout]
    · refine List.Forall₂.cons ⟨hc, ?_, ?_⟩ hall
      · intro u hu; subst hu; rfl
      · intro m hm; subst hm; rfl

/-! ## Claim C9 -/

/-- C9: when every stored key parses as a chat id, loading pairs each stored
entry, in order and without loss, with a loaded record whose chat id is the
parsed key; a legacy single-URL string value becomes the one-entry mapping
under the fixed label "RSS Feed", and a mapping-shaped value is returned
unchanged.  No error is raised: load_rss_data is total. -/
theorem c9_legacy_migration (raw : List (String × StoredVal))
    (h : ∀ kv ∈ raw, (py_int? kv.1).isSome = true) :
    List.Forall₂ (fun (kv : String × StoredVal) (o : Int × List (String × String)) =>
        py_int? kv.1 = some o.1
        ∧ (∀ u, kv.2 = .str u → o.2 = [("RSS Feed", u)])
        ∧ (∀ m, kv.2 = .map m → o.2 = m)) raw (load_rss_data raw) := by
  obtain ⟨out, hout, hall⟩ := load_entries_ok raw h
  unfold load_rss_data
  rw [hout]
  exact hall

/-- C9 witness: the spec example, a store file holding the legacy entry
"42" -> "https://old/feed", loads as 42 -> [("RSS Feed", "https://old/feed")]
without raising. -/
theorem c9_legacy_migration_witness :
    List.Forall₂ (fun (kv : String × StoredVal) (o : Int × List (String × String)) =>
        py_int? kv.1 = some o.1
        ∧ (∀ u, kv.2 = .str u → o.2 = [("RSS Feed", u)])
        ∧ (∀ m, kv.2 = .map m → o.2 = m))
      [("42", .str "https://old/feed")]
      (load_rss_data [("42", .str "https://old/feed")]) :=
  c9_legacy_migration [("42", .str "https://old/feed")] (by decide)

/-! ## The setrss command handler (src/bot/main.py lines 240-306; the same
body is repeated in src/bot/handlers/rss.py lines 22-88) -/

/-- A positional argument of a Python call. -/
inductive CallArg where
  | intArg (i : Int)
  | strArg (s : String)
deriving DecidableEq, Repr

/-- Calling save_rss_url as a Python callable: its def takes exactly three
positional parameters (chat_id, name, rss_url) with no defaults
(src/bot/services/rss_manager.py line 48), so a call with any other argument
shape raises TypeError before the body runs. -/
def save_rss_url_apply (store : RssStore) (args : List CallArg) :
    Except String ((Bool × String) × RssStore) :=
  match args with
  | [.intArg chat_id, .strArg name, .strArg rss_url] =>
    .ok (save_rss_url store chat_id name rss_url)
  | _ => .error "TypeError"

/-- The replies a /setrss invocation can produce. -/
inductive SetrssReply where
  | unauthorized
  | usage
  | invalidUrl
  | saved
  | errorReply
deriving DecidableEq, Repr

/-- The Python rss_url.startswith(prefix) test: the characters of the prefix
lead the characters of the string. -/
def starts_with (s p : String) : Bool := p.data.isPrefixOf s.data

/-- setrss_command (src/bot/main.py lines 240-306): authorization check, usage
message for an empty argument list, scheme check on the joined URL, then the
try block calls save_rss_url with TWO positional arguments (line 281:
save_rss_url(chat_id, rss_url)); the except Exception branch replies with the
saving-error message and leaves the store as it was. -/
def setrss_command (store : RssStore) (chat_id : Int) (authorized : Bool)
    (args : List String) : SetrssReply × RssStore :=
  if authorized = false then (.unauthorized, store)
  else if args = [] then (.usage, store)
  else
    let rss_url := " ".intercalate args
    if ¬(starts_with rss_url "http://" ∨ starts_with rss_url "https://") then
      (.invalidUrl, store)
    else
      match save_rss_url_apply store [.intArg chat_id, .strArg rss_url] with
      | .ok r => (.saved, r.2)
      | .error _ => (.errorReply, store)

/-! ## Claim C10 -/

/-- C10: for every authorized /setrss invocation with a non-empty argument
list whose joined URL starts with http:// or https://, the two-argument call
to the three-parameter save_rss_url raises TypeError, the handler takes its
error branch, and the store is unchanged; moreover NO invocation of this
handler, whatever its arguments, ever changes the feed store. -/
theorem c10_setrss_arity_bug (store : RssStore) (chat_id : Int) (args : List String)
    (hne : args ≠ [])
    (hurl : starts_with (" ".intercalate args) "http://" = true
          ∨ starts_with (" ".intercalate args) "https://" = true) :
    setrss_command store chat_id true args = (.errorReply, store)
    ∧ ∀ (auth : Bool) (args2 : List String),
        (setrss_command store chat_id auth args2).2 = store := by
  constructor
  · unfold setrss_command
    rw [if_neg (by simp), if_neg hne, if_neg (not_not_intro hurl)]
    rfl
  · intro auth args2
    unfold setrss_command
    by_cases h1 : auth = false
    · rw [if_pos h1]
    · rw [if_neg h1]
      by_cases h2 : args2 = []
      · rw [if_pos h2]
      · rw [if_neg h2]
        by_cases h3 : ¬(starts_with (" ".intercalate args2) "http://"
            ∨ starts_with (" ".intercalate args2) "https://")
        · rw [if_pos h3]
        · rw [if_neg h3]
          rfl

/-- C10 witness: the error branch and the untouched store at a concrete valid
invocation, /setrss https://example.com/rss/feed on an empty store. -/
theorem c10_setrss_arity_bug_witness :
    setrss_command [] 42 true ["https://example.com/rss/feed"]
        = (.errorReply, ([] : RssStore))
    ∧ ∀ (auth : Bool) (args2 : List String),
        (setrss_command [] 42 auth args2).2 = ([] : RssStore) :=
  c10_setrss_arity_bug [] 42 ["https://example.com/rss/feed"] (by decide) (by decide)

/-! ## Batch ingestion coordinator (src/bot/main.py, handle_document and
send_batch_summary) -/

/-- The summary message send_batch_summary builds from the drained queue
(src/bot/main.py lines 128-229): the singular format for exactly one file,
otherwise the aggregate format listing the successful files first and then,
under the Failed Files heading, the failed ones. -/
inductive BatchSummary where
  | singular (f : TorrentFile)
  | aggregate (successful failed : List TorrentFile)
deriving DecidableEq, Repr

/-- The emission of send_batch_summary as a function of the swapped-out queue
(src/bot/main.py lines 119-229): an empty queue returns without sending
(none); one file uses the singular format; otherwise the aggregate format is
built from successful = [f for f in files if f.success] and
failed = [f for f in files if not f.success]. -/
def send_batch_summary_emit : List TorrentFile → Option BatchSummary
  | [] => none
  | [f] => some (.singular f)
  | files => some (.aggregate (files.filter (fun f => f.success))
                              (files.filter (fun f => !f.success)))

/-- The file names of a summary in the order the message displays them. -/
def summary_names : BatchSummary → List String
  | .singular f => [f.name]
  | .aggregate succ fails => succ.map (fun f => f.name) ++ fails.map (fun f => f.name)

/-- The per-user coordinator state: batch_queues[chat_id] and
batch_tasks[chat_id] of src/bot/models.py, plus ghost fields.  pending is the
generation number of the armed task; cancelled the generations whose task was
cancelled; done the generations whose task has finished; delivered the ghost
log of emitted summaries (each the queue it drained, in arrival order);
recorded the ghost log of every file ever recorded for this user. -/
structure CoordState where
  queue : List TorrentFile
  pending : Option Nat
  cancelled : List Nat
  done : List Nat
  nextGen : Nat
  delivered : List (List TorrentFile)
  recorded : List TorrentFile

/-- The state before any file arrives. -/
def CoordState.init : CoordState :=
  { queue := [], pending := none, cancelled := [], done := [], nextGen := 0,
    delivered := [], recorded := [] }

/-- One event of the per-user coordinator.  The asyncio event loop is single
threaded, so the code between two awaits runs atomically: handle_document
(append, cancel, re-arm; src/bot/main.py lines 98-110) is one step, and the
queue swap of a resumed timer task (lines 119-126) is one step — the only
interleaving point is whether a cancellation lands before the sleeping task
resumes, which is the fireCancelled case. -/
inductive CoordStep : CoordState → CoordState → Prop where
  /-- handle_document: append the arriving file to the queue, cancel the
  pending task if any, and arm a fresh task with a new generation. -/
  | record (s : CoordState) (f : TorrentFile) :
      CoordStep s
        { queue := s.queue ++ [f]
          pending := some s.nextGen
          cancelled :=
            match s.pending with
            | some g => g :: s.cancelled
            | none => s.cancelled
          done := s.done
          nextGen := s.nextGen + 1
          delivered := s.delivered
          recorded := s.recorded ++ [f] }
  /-- The armed, uncancelled task resumes after its sleep with a non-empty
  queue: it swaps the queue for an empty one, removes its task handle and
  emits exactly one summary of the drained files (send_batch_summary lines
  116-229). -/
  | fireDrain (s : CoordState) (g : Nat) (hp : s.pending = some g)
      (hc : g ∉ s.cancelled) (hd : g ∉ s.done) (hq : s.queue ≠ []) :
      CoordStep s
        { s with queue := [], pending := none, done := g :: s.done,
                 delivered := s.delivered ++ [s.queue] }
  /-- The armed, uncancelled task resumes with an empty queue: it returns
  without sending and without touching the handle (lines 119-121); a lost
  race is a no-op, not an error. -/
  | fireEmpty (s : CoordState) (g : Nat) (hp : s.pending = some g)
      (hc : g ∉ s.cancelled) (hd : g ∉ s.done) (hq : s.queue = []) :
      CoordStep s { s with done := g :: s.done }
  /-- A cancelled task resumes: asyncio raises CancelledError in it, which
  send_batch_summary swallows (lines 231-233); nothing is drained or sent. -/
  | fireCancelled (s : CoordState) (g : Nat) (hc : g ∈ s.cancelled)
      (hd : g ∉ s.done) :
      CoordStep s { s with done := g :: s.done }

/-- The states a single user's coordinator can reach from the initial state
under any interleaving of arrivals and timer events. -/
def CoordReachable (s : CoordState) : Prop :=
  Relation.ReflTransGen CoordStep CoordState.init s

/-! ## Claim C1 -/

/-- C1: in every reachable coordinator state the ghost log of recorded files
is exactly the concatenation of the emitted summaries followed by the files
still queued — so no recorded file is ever lost or delivered in two
summaries, even when a cancellation races with a firing timer, and once the
queue is drained every recorded file sits in exactly one summary. -/
theorem c1_exactly_once (s : CoordState) (h : CoordReachable s) :
    s.recorded = s.delivered.flatten ++ s.queue := by
  induction h with
  | refl => rfl
  | tail _ st ih =>
    cases st with
    | record f =>
      simp [ih]
    | fireDrain g hp hc hd hq =>
      simp [ih]
    | fireEmpty g hp hc hd hq =>
      exact ih
    | fireCancelled g hc hd =>
      exact ih

/-- C1 witness: the trace arrival then drain — one file recorded, one summary
delivered containing exactly that file. -/
theorem c1_exactly_once_witness :
    ({ queue := [], pending := none, cancelled := [], done := [0], nextGen := 1,
       delivered := [[⟨"a.torrent", 12, true⟩]],
       recorded := [⟨"a.torrent", 12, true⟩] } : CoordState).recorded
      = ({ queue := [], pending := none, cancelled := [], done := [0], nextGen := 1,
           delivered := [[⟨"a.torrent", 12, true⟩]],
           recorded := [⟨"a.torrent", 12, true⟩] } : CoordState).delivered.flatten
        ++ ({ queue := [], pending := none, cancelled := [], done := [0], nextGen := 1,
              delivered := [[⟨"a.torrent", 12, true⟩]],
              recorded := [⟨"a.torrent", 12, true⟩] } : CoordState).queue :=
  c1_exactly_once _
    (Relation.ReflTransGen.tail
      (Relation.ReflTransGen.single
        (CoordStep.record CoordState.init ⟨"a.torrent", 12, true⟩))
      (CoordStep.fireDrain _ 0 rfl (by decide) (by decide) (by decide)))

/-! ## Claim C2 -/

/-- C2, counterexample: a failed file that arrived before a successful one is
displayed after it — the aggregate summary lists successes first and failures
last, so the files of the summary are NOT in arrival order. -/
theorem c2_order_counterexample :
    send_batch_summary_emit [⟨"a", 1, false⟩, ⟨"b", 2, true⟩]
        = some (.aggregate [⟨"b", 2, true⟩] [⟨"a", 1, false⟩])
    ∧ summary_names (.aggregate [⟨"b", 2, true⟩] [⟨"a", 1, false⟩])
        ≠ ([⟨"a", 1, false⟩, ⟨"b", 2, true⟩] : List TorrentFile).map (fun f => f.name) := by
  decide

/-- C2 (amended): expiry with a non-empty queue emits exactly one summary —
the singular format for exactly one file, the aggregate format otherwise —
whose displayed files are a permutation of the queue in which the successful
files come first in arrival order followed by the failed files in arrival
order; expiry with an empty swapped-out queue emits nothing and is not an
error. -/
theorem c2_summary_emit (files : List TorrentFile) (hne : files ≠ []) :
    send_batch_summary_emit [] = none
    ∧ ∃ s, send_batch_summary_emit files = some s
      ∧ (summary_names s).Perm (files.map (fun f => f.name))
      ∧ (∀ f, files = [f] → s = .singular f)
      ∧ (2 ≤ files.length →
          s = .aggregate (files.filter (fun f => f.success))
                         (files.filter (fun f => !f.success))) := by
  refine ⟨rfl, ?_⟩
  match files with
  | [] => exact absurd rfl hne
  | [f] =>
    refine ⟨.singular f, rfl, by simp [summary_names], fun g hg => ?_, fun h2 => ?_⟩
    · cases hg; rfl
    · simp at h2
  | f1 :: f2 :: rest =>
    refine ⟨.aggregate ((f1 :: f2 :: rest).filter (fun f => f.success))
        ((f1 :: f2 :: rest).filter (fun f => !f.success)), rfl, ?_, fun g hg => ?_, fun _ => rfl⟩
    · show (List.map (fun f => f.name) (List.filter (fun f => f.success) (f1 :: f2 :: rest))
          ++ List.map (fun f => f.name) (List.filter (fun f => !f.success) (f1 :: f2 :: rest))).Perm
          (List.map (fun f => f.name) (f1 :: f2 :: rest))
      rw [← List.map_append]
      exact List.Perm.map _ (List.filter_append_perm _ _)
    · exact absurd hg (by simp)

/-- C2 witness: the amended summary facts at a concrete two-file queue with
one success and one failure. -/
theorem c2_summary_emit_witness :
    send_batch_summary_emit [] = none
    ∧ ∃ s, send_batch_summary_emit [⟨"a", 1, false⟩, ⟨"b", 2, true⟩] = some s
      ∧ (summary_names s).Perm
          (([⟨"a", 1, false⟩, ⟨"b", 2, true⟩] : List TorrentFile).map (fun f => f.name))
      ∧ (∀ f, ([⟨"a", 1, false⟩, ⟨"b", 2, true⟩] : List TorrentFile) = [f] → s = .singular f)
      ∧ (2 ≤ ([⟨"a", 1, false⟩, ⟨"b", 2, true⟩] : List TorrentFile).length →
          s = .aggregate (([⟨"a", 1, false⟩, ⟨"b", 2, true⟩] : List TorrentFile).filter (fun f => f.success))
                         (([⟨"a", 1, false⟩, ⟨"b", 2, true⟩] : List TorrentFile).filter (fun f => !f.success))) :=
  c2_summary_emit [⟨"a", 1, false⟩, ⟨"b", 2, true⟩] (by decide)

end STTB
